import Mathlib

/-!
Verification of the Spacelift flows app client module and the
createStackFromBlueprint block, as a shallow embedding in Lean.

The embedding follows the TypeScript source: JavaScript values that matter
to control flow (truthiness tests) are modelled by an explicit `JSValue`
type; `Array.prototype.join` is modelled by `jsJoin`; `String.prototype.toLowerCase`
by `strToLower`; `String.prototype.includes` by `strIncludes`.  Network and
cache effects are modelled by passing the responses and cache contents as
explicit arguments and returning traces of the calls that would be made.
-/

/-- Model of a JavaScript value as far as the client code observes it:
the code only ever branches on truthiness and coerces values to strings,
so a flat value model suffices. `undefined` and absent fields are modelled
as `Option.none` at use sites. -/
inductive JSValue where
  | jsNull : JSValue
  | jsBool : Bool → JSValue
  | jsNum : Int → JSValue
  | jsStr : String → JSValue
  | jsObjV : List (String × String) → JSValue
  | jsArrV : List String → JSValue
deriving DecidableEq, Repr

/-- JavaScript truthiness of a defined value: null, false, 0 and the empty
string are falsy; every object and array is truthy. -/
def jsTruthy : JSValue → Bool
  | JSValue.jsNull => false
  | JSValue.jsBool b => b
  | JSValue.jsNum n => n != 0
  | JSValue.jsStr s => s != ""
  | JSValue.jsObjV _ => true
  | JSValue.jsArrV _ => true

/-- Truthiness of a possibly-undefined value: `undefined` is falsy. -/
def jsTruthyOpt : Option JSValue → Bool
  | none => false
  | some v => jsTruthy v

/-- JavaScript `Array.prototype.join`: elements interleaved with the
separator, empty string on the empty array. -/
def jsJoin (sep : String) : List String → String
  | [] => ""
  | [x] => x
  | x :: y :: ys => x ++ sep ++ jsJoin sep (y :: ys)

/-- JavaScript `String(v)` coercion for the modelled values. -/
def jsToString : JSValue → String
  | JSValue.jsNull => "null"
  | JSValue.jsBool true => "true"
  | JSValue.jsBool false => "false"
  | JSValue.jsNum n => toString n
  | JSValue.jsStr s => s
  | JSValue.jsObjV _ => "[object Object]"
  | JSValue.jsArrV xs => jsJoin "," xs

/-- ASCII lowercasing of a string, character by character, modelling
`String.prototype.toLowerCase` on the ASCII texts the client handles. -/
def strToLower (s : String) : String := ⟨s.data.map Char.toLower⟩

/-- `hay.includes(needle)`: the characters of `needle` occur contiguously
inside `hay`. -/
def strIncludes (hay needle : String) : Bool := decide (needle.data <:+: hay.data)

/-- Credentials extracted from the app configuration
(interface SpaceliftCredentials in the client module). -/
structure SpaceliftCredentials where
  apiKeyId : String
  apiKeySecret : String
  endpoint : String
deriving DecidableEq, Repr

/-- Cache key derivation from the client module:
the template literal produces `spacelift_jwt_` followed by the endpoint,
an underscore, and the api key id. -/
def getCacheKey (c : SpaceliftCredentials) : String :=
  "spacelift_jwt_" ++ c.endpoint ++ "_" ++ c.apiKeyId

/-- Cache key format as the specification words it, for comparison with
`getCacheKey`: the spec claims the key is `jwt:` followed by the endpoint
host, a colon, and the key id. -/
def specCacheKeyFormat (c : SpaceliftCredentials) : String :=
  "jwt:" ++ c.endpoint ++ ":" ++ c.apiKeyId

/-- The app configuration mapping, an association list of string-valued
configuration fields. Lookup of an absent key models `undefined`. -/
structure AppConfig where
  entries : List (String × String)
deriving DecidableEq, Repr

/-- Property access `appConfig[k]` on the configuration mapping. -/
def AppConfig.lookup (cfg : AppConfig) (k : String) : Option String :=
  (cfg.entries.find? (fun p => p.1 == k)).map (fun p => p.2)

/-- Truthiness of a possibly-absent string field: absent is falsy,
an empty string is falsy, anything else truthy. -/
def jsTruthyStrOpt : Option String → Bool
  | none => false
  | some s => s != ""

/-- extractCredentials from the client module: fail unless the three
fields are all present and truthy, otherwise return them unchanged. -/
def extractCredentials (cfg : AppConfig) : Except String SpaceliftCredentials :=
  if !(jsTruthyStrOpt (cfg.lookup "apiKeyId")) ||
     !(jsTruthyStrOpt (cfg.lookup "apiKeySecret")) ||
     !(jsTruthyStrOpt (cfg.lookup "endpoint")) then
    Except.error "Missing required Spacelift credentials in app config"
  else
    Except.ok
      { apiKeyId := (cfg.lookup "apiKeyId").getD ""
        apiKeySecret := (cfg.lookup "apiKeySecret").getD ""
        endpoint := (cfg.lookup "endpoint").getD "" }

/-- The raw output of the login call (fetchNewJWT): a token and its
expiry time in epoch seconds. -/
structure TokenFetchResult where
  jwt : String
  validUntil : Int
deriving DecidableEq, Repr

/-- The value stored in the token cache (interface CachedJWTToken). -/
structure CachedJWTToken where
  jwt : String
deriving DecidableEq, Repr

/-- Arguments of a `kv.app.set` call. -/
structure KVSetArgs where
  key : String
  value : CachedJWTToken
  ttl : Int
deriving DecidableEq, Repr

/-- refreshSpaceliftJWT from the client module, with the network fetch and
the current time passed in: computes the TTL with the 300-second safety
buffer and the 60-second floor, and returns the cache write it performs
together with the returned jwt. -/
def refreshSpaceliftJWT (c : SpaceliftCredentials) (fetched : TokenFetchResult)
    (now : Int) : KVSetArgs × String :=
  let cacheKey := getCacheKey c
  let ttlSeconds := max (fetched.validUntil - now - 300) 60
  ({ key := cacheKey, value := { jwt := fetched.jwt }, ttl := ttlSeconds }, fetched.jwt)

/-- Observable behaviour of getSpaceliftJWT: which key was consulted,
which cache write (if any) was performed, and the jwt returned. -/
structure GetJWTTrace where
  lookupKey : String
  stored : Option KVSetArgs
  jwt : String
deriving Repr

/-- getSpaceliftJWT from the client module, with the cache contents
(`kvGet`), the would-be fetch result and the current time passed in. -/
def getSpaceliftJWT (c : SpaceliftCredentials) (kvGet : String → Option CachedJWTToken)
    (fetched : TokenFetchResult) (now : Int) : GetJWTTrace :=
  let cacheKey := getCacheKey c
  match kvGet cacheKey with
  | some cachedTok => { lookupKey := cacheKey, stored := none, jwt := cachedTok.jwt }
  | none =>
      let r := refreshSpaceliftJWT c fetched now
      { lookupKey := cacheKey, stored := some r.1, jwt := r.2 }

/-- One entry of the `errors` array of a GraphQL response. -/
structure GraphQLErrorEntry where
  message : String
  extensions : Option (List (String × String))
deriving DecidableEq, Repr

/-- interface SpaceliftApiResponse: optional data payload, optional list
of errors. An absent field is `none`; a present-but-empty error list is
`some []`. -/
structure SpaceliftApiResponse where
  data : Option JSValue
  errors : Option (List GraphQLErrorEntry)
deriving DecidableEq, Repr

/-- formatExtensions from the client module: one line per entry,
four spaces of indentation, numbered from 1, joined by newlines.
The degenerate non-object branch of the source is unreachable for
values of the declared type Record of string to string and is not modelled. -/
def formatExtensions (ext : List (String × String)) : String :=
  jsJoin "\n" (ext.enum.map (fun p => "    " ++ toString (p.1 + 1) ++ ". " ++ p.2.1 ++ ": " ++ p.2.2))

/-- The line rendered for one error entry inside a thrown GraphQL error
message: the mapped function inside the throw expressions of
executeSpaceliftQuery. -/
def graphQLErrorLine (e : GraphQLErrorEntry) : String :=
  match e.extensions with
  | some ext => " - " ++ e.message ++ ":\n" ++ formatExtensions ext
  | none => " - " ++ e.message

/-- The full message of a GraphQL error thrown by executeSpaceliftQuery. -/
def graphQLErrorText (errs : List GraphQLErrorEntry) : String :=
  "GraphQL error:\n" ++ jsJoin "\n" (errs.map graphQLErrorLine) ++ "\n"

/-- The retry classifier of executeSpaceliftQuery: the error messages
joined with single spaces, lowercased, tested for the substring
unauthorized. -/
def unauthorizedMatch (errs : List GraphQLErrorEntry) : Bool :=
  strIncludes (strToLower (jsJoin " " (errs.map (fun e => e.message)))) "unauthorized"

/-- Retry classifier as the claim words it: the plain (separator-free)
concatenation of all error messages, case-folded, tested for the
substring unauthorized. Kept separate from `unauthorizedMatch` to compare
the spec wording with the code. -/
def specRetryPredicate (errs : List GraphQLErrorEntry) : Bool :=
  strIncludes (strToLower (String.join (errs.map (fun e => e.message)))) "unauthorized"

/-- Terminal outcome of one executeSpaceliftQuery call. -/
inductive QueryOutcome where
  | success : JSValue → QueryOutcome
  | graphQLError : String → QueryOutcome
  | protocolError : String → QueryOutcome
deriving DecidableEq, Repr

/-- Observable trace of one executeSpaceliftQuery call: its outcome, the
bearer tokens of the requests it issued in order, and how many token
refreshes it performed after the initial token acquisition. -/
structure ExecTrace where
  outcome : QueryOutcome
  requests : List String
  refreshes : Nat
deriving DecidableEq, Repr

/-- The final data check of executeSpaceliftQuery: the JavaScript test
`!result.data` throws on an absent or falsy payload, otherwise the
payload is returned. -/
def checkData (r : SpaceliftApiResponse) : QueryOutcome :=
  match r.data with
  | some v =>
      if jsTruthy v then QueryOutcome.success v
      else QueryOutcome.protocolError "No data returned from Spacelift API"
  | none => QueryOutcome.protocolError "No data returned from Spacelift API"

/-- executeSpaceliftQuery from the client module, with the network
modelled explicitly: `jwt0` is the token obtained from getSpaceliftJWT,
`jwtFresh` the token a refreshSpaceliftJWT call during retry would
return, `resp1` the response to the first request and `resp2` the
response to the retried request (consulted only if a retry happens). -/
def executeSpaceliftQuery (jwt0 jwtFresh : String)
    (resp1 resp2 : SpaceliftApiResponse) : ExecTrace :=
  match resp1.errors with
  | some errs =>
      if unauthorizedMatch errs then
        match resp2.errors with
        | some errs2 =>
            { outcome := QueryOutcome.graphQLError (graphQLErrorText errs2)
              requests := [jwt0, jwtFresh], refreshes := 1 }
        | none =>
            { outcome := checkData resp2
              requests := [jwt0, jwtFresh], refreshes := 1 }
      else
        { outcome := QueryOutcome.graphQLError (graphQLErrorText errs)
          requests := [jwt0], refreshes := 0 }
  | none => { outcome := checkData resp1, requests := [jwt0], refreshes := 0 }

/-- Extension lines as the specification words them, written with an
explicit running counter instead of the enumeration of the source:
line n is four spaces, the number, a dot, the key, a colon, the value. -/
def specExtensionLines (n : Nat) : List (String × String) → List String
  | [] => []
  | (k, v) :: rest => ("    " ++ toString n ++ ". " ++ k ++ ": " ++ v) :: specExtensionLines (n + 1) rest

/-- One error line as the amended specification words it: the message
prefixed by a dash, and, when extensions are present, a colon and the
numbered extension lines starting from 1. -/
def specErrorLineIndented (e : GraphQLErrorEntry) : String :=
  match e.extensions with
  | none => " - " ++ e.message
  | some ext => " - " ++ e.message ++ ":\n" ++ jsJoin "\n" (specExtensionLines 1 ext)

/-- The full thrown GraphQL error message as the amended specification
words it: the header, the newline-joined error lines, a trailing
newline. -/
def specGraphQLMessageIndented (errs : List GraphQLErrorEntry) : String :=
  "GraphQL error:\n" ++ jsJoin "\n" (errs.map specErrorLineIndented) ++ "\n"

/-- A string containing no underscore character. -/
def underscoreFree (s : String) : Bool := s.data.all (fun ch => ch != '_')

/-- One template input pair of the stack creation mutation variables. -/
structure TemplateInputPair where
  id : String
  value : String
deriving DecidableEq, Repr

/-- The `input` object of the stack creation mutation variables. -/
structure BlueprintCreateInput where
  templateInputs : List TemplateInputPair
deriving DecidableEq, Repr

/-- The GraphQL variables of the stack creation mutation. -/
structure CreateStackVariables where
  id : String
  input : BlueprintCreateInput
deriving DecidableEq, Repr

/-- The mapping produced by the input-config translation layer for the
createStackFromBlueprint block: the blueprint id under the key id, the
raw inputs mapping (possibly absent) under the key templateInputs. -/
structure MappedInputs where
  id : String
  templateInputs : Option (List (String × JSValue))
deriving DecidableEq, Repr

/-- Modelled from the spec: `mapInputsToGraphQLVariables` lives in the
src/utils module, which is not part of the provided sources; per the
block configuration and the spec, it renames each configured input to
its graphqlFieldKey, so blueprintId becomes id and inputs becomes
templateInputs, with values passed through unchanged. -/
def mapInputsToGraphQLVariables (blueprintId : String)
    (inputs : Option (List (String × JSValue))) : MappedInputs :=
  { id := blueprintId, templateInputs := inputs }

/-- The variable construction of the onEvent handler of
createStackFromBlueprint: the inputs object, when truthy, becomes an
ordered list of pairs with values coerced to strings, otherwise the
empty list; the result is wrapped as the id and input variables. -/
def buildCreateStackVariables (m : MappedInputs) : CreateStackVariables :=
  { id := m.id
    input := { templateInputs :=
      match m.templateInputs with
      | some entries => entries.map (fun p => { id := p.1, value := jsToString p.2 })
      | none => [] } }

/-- End-to-end variable construction of the createStackFromBlueprint
block, from the raw block inputs. -/
def createStackVariablesOf (blueprintId : String)
    (inputs : Option (List (String × JSValue))) : CreateStackVariables :=
  buildCreateStackVariables (mapInputsToGraphQLVariables blueprintId inputs)

theorem strData_append (s t : String) : (s ++ t).data = s.data ++ t.data := rfl

theorem strData_inj {s t : String} (h : s.data = t.data) : s = t := by
  cases s
  cases t
  exact congrArg String.mk h

theorem mem_infix_jsJoin (sep : String) :
    ∀ (l : List String) (s : String), s ∈ l → s.data <:+: (jsJoin sep l).data
  | [], _, h => absurd h (List.not_mem_nil _)
  | [x], s, h => by
      have hx : s = x := by simpa using h
      subst hx
      exact List.infix_rfl
  | x :: y :: ys, s, h => by
      rcases List.mem_cons.mp h with rfl | h2
      · have : jsJoin sep (s :: y :: ys) = s ++ sep ++ jsJoin sep (y :: ys) := rfl
        rw [this, strData_append, strData_append, List.append_assoc]
        exact (List.prefix_append _ _).isInfix
      · have ih := mem_infix_jsJoin sep (y :: ys) s h2
        have hj : jsJoin sep (x :: y :: ys) = x ++ sep ++ jsJoin sep (y :: ys) := rfl
        have hsuf : (jsJoin sep (y :: ys)).data <:+: (jsJoin sep (x :: y :: ys)).data := by
          rw [hj, strData_append]
          exact (List.suffix_append _ _).isInfix
        exact ih.trans hsuf

theorem message_infix_line (e : GraphQLErrorEntry) :
    e.message.data <:+: (graphQLErrorLine e).data := by
  cases hx : e.extensions with
  | none =>
      simp only [graphQLErrorLine, hx, strData_append]
      exact (List.suffix_append _ _).isInfix
  | some ext =>
      simp only [graphQLErrorLine, hx]
      refine ⟨" - ".data, ":\n".data ++ (formatExtensions ext).data, ?_⟩
      simp [strData_append, List.append_assoc]

theorem message_infix_text {e : GraphQLErrorEntry} {errs : List GraphQLErrorEntry}
    (h : e ∈ errs) : e.message.data <:+: (graphQLErrorText errs).data := by
  have h1 : graphQLErrorLine e ∈ errs.map graphQLErrorLine := List.mem_map_of_mem _ h
  have h2 := mem_infix_jsJoin "\n" (errs.map graphQLErrorLine) _ h1
  have h3 : (jsJoin "\n" (errs.map graphQLErrorLine)).data <:+: (graphQLErrorText errs).data := by
    refine ⟨"GraphQL error:\n".data, "\n".data, ?_⟩
    simp [graphQLErrorText, strData_append, List.append_assoc]
  exact (message_infix_line e).trans (h2.trans h3)

theorem sep_split (e1 : List Char) : ∀ (e2 k1 k2 : List Char), '_' ∉ e1 → '_' ∉ e2 →
    e1 ++ '_' :: k1 = e2 ++ '_' :: k2 → e1 = e2 ∧ k1 = k2 := by
  induction e1 with
  | nil =>
      intro e2 k1 k2 _ h2 h
      cases e2 with
      | nil => simpa using h
      | cons c e2' =>
          simp only [List.nil_append, List.cons_append, List.cons.injEq] at h
          exfalso
          apply h2
          rw [h.1]
          exact List.mem_cons_self _ _
  | cons c e1' ih =>
      intro e2 k1 k2 h1 h2 h
      cases e2 with
      | nil =>
          simp only [List.nil_append, List.cons_append, List.cons.injEq] at h
          exfalso
          apply h1
          rw [← h.1]
          exact List.mem_cons_self _ _
      | cons d e2' =>
          simp only [List.cons_append, List.cons.injEq] at h
          obtain ⟨rfl, h'⟩ := h
          have hr := ih e2' k1 k2 (fun hm => h1 (List.mem_cons_of_mem _ hm))
            (fun hm => h2 (List.mem_cons_of_mem _ hm)) h'
          exact ⟨by rw [hr.1], hr.2⟩

theorem underscoreFree_not_mem {s : String} (h : underscoreFree s = true) :
    '_' ∉ s.data := by
  intro hm
  have := List.all_eq_true.mp h _ hm
  simp at this

theorem enumFrom_extLines (ext : List (String × String)) : ∀ n : Nat,
    (List.enumFrom n ext).map
      (fun p => "    " ++ toString (p.1 + 1) ++ ". " ++ p.2.1 ++ ": " ++ p.2.2) =
      specExtensionLines (n + 1) ext := by
  induction ext with
  | nil => intro n; rfl
  | cons kv rest ih =>
      intro n
      cases kv with
      | mk k v => simp [List.enumFrom, specExtensionLines, ih]

theorem formatExtensions_eq_spec (ext : List (String × String)) :
    formatExtensions ext = jsJoin "\n" (specExtensionLines 1 ext) := by
  unfold formatExtensions
  rw [show List.enum ext = List.enumFrom 0 ext from rfl, enumFrom_extLines]

theorem errorLine_eq_spec (e : GraphQLErrorEntry) :
    graphQLErrorLine e = specErrorLineIndented e := by
  cases hx : e.extensions with
  | none => simp [graphQLErrorLine, specErrorLineIndented, hx]
  | some ext => simp [graphQLErrorLine, specErrorLineIndented, hx, formatExtensions_eq_spec]

theorem graphQLErrorText_eq_spec (errs : List GraphQLErrorEntry) :
    graphQLErrorText errs = specGraphQLMessageIndented errs := by
  unfold graphQLErrorText specGraphQLMessageIndented
  rw [funext errorLine_eq_spec]

theorem checkData_ne_graphQLError (r : SpaceliftApiResponse) (m : String) :
    checkData r ≠ QueryOutcome.graphQLError m := by
  unfold checkData
  split <;> (try split) <;> simp

theorem checkData_success (r : SpaceliftApiResponse) (v : JSValue)
    (hv : r.data = some v) (ht : jsTruthy v = true) :
    checkData r = QueryOutcome.success v := by
  simp [checkData, hv, ht]

theorem checkData_protocol (r : SpaceliftApiResponse)
    (h : jsTruthyOpt r.data = false) :
    checkData r = QueryOutcome.protocolError "No data returned from Spacelift API" := by
  cases hd : r.data with
  | none => simp [checkData, hd]
  | some v =>
      rw [hd] at h
      simp only [jsTruthyOpt] at h
      simp [checkData, hd, h]

/-- C2: for every login result with expiry validUntil and current time now,
refreshSpaceliftJWT stores the token in the cache with
ttl = max(validUntil - now - 300, 60); validUntil = now + 400 yields ttl
100, validUntil = now + 50 yields ttl 60, and the stored ttl is always at
least 60 seconds. -/
theorem refreshSpaceliftJWT_ttl_formula (c : SpaceliftCredentials)
    (fetched : TokenFetchResult) (now : Int) :
    (refreshSpaceliftJWT c fetched now).1.ttl = max (fetched.validUntil - now - 300) 60 ∧
    (refreshSpaceliftJWT c fetched now).1.value = { jwt := fetched.jwt } ∧
    (fetched.validUntil = now + 400 → (refreshSpaceliftJWT c fetched now).1.ttl = 100) ∧
    (fetched.validUntil = now + 50 → (refreshSpaceliftJWT c fetched now).1.ttl = 60) ∧
    60 ≤ (refreshSpaceliftJWT c fetched now).1.ttl := by
  refine ⟨rfl, rfl, ?_, ?_, ?_⟩
  · intro h
    show max (fetched.validUntil - now - 300) 60 = 100
    rw [h, show now + 400 - now - 300 = (100 : Int) by ring]
    exact max_eq_left (by norm_num)
  · intro h
    show max (fetched.validUntil - now - 300) 60 = 60
    rw [h, show now + 50 - now - 300 = (-250 : Int) by ring]
    exact max_eq_right (by norm_num)
  · exact le_max_right _ _

/-- C2 witness: with validUntil 400 and now 0 the stored ttl is 100. -/
theorem refreshSpaceliftJWT_ttl_formula_witness :
    (refreshSpaceliftJWT ⟨"a", "b", "c.example"⟩ ⟨"tok", 400⟩ 0).1.ttl = 100 :=
  (refreshSpaceliftJWT_ttl_formula ⟨"a", "b", "c.example"⟩ ⟨"tok", 400⟩ 0).2.2.1 (by decide)

/-- C4: extractCredentials returns a Credentials value if and only if
apiKeyId, apiKeySecret and endpoint are all present and truthy in the
configuration mapping, in which case it returns exactly those three field
values verbatim; otherwise it fails with the configuration error stating
that credentials are missing. -/
theorem extractCredentials_characterization (cfg : AppConfig) :
    (∀ a b c, cfg.lookup "apiKeyId" = some a → cfg.lookup "apiKeySecret" = some b →
      cfg.lookup "endpoint" = some c → a ≠ "" → b ≠ "" → c ≠ "" →
      extractCredentials cfg = Except.ok ⟨a, b, c⟩) ∧
    ((jsTruthyStrOpt (cfg.lookup "apiKeyId") = false ∨
      jsTruthyStrOpt (cfg.lookup "apiKeySecret") = false ∨
      jsTruthyStrOpt (cfg.lookup "endpoint") = false) →
      extractCredentials cfg = Except.error "Missing required Spacelift credentials in app config") ∧
    (∀ cred, extractCredentials cfg = Except.ok cred →
      cfg.lookup "apiKeyId" = some cred.apiKeyId ∧
      cfg.lookup "apiKeySecret" = some cred.apiKeySecret ∧
      cfg.lookup "endpoint" = some cred.endpoint) := by
  refine ⟨?_, ?_, ?_⟩
  · intro a b c ha hb hc na nb nc
    simp [extractCredentials, ha, hb, hc, jsTruthyStrOpt, na, nb, nc]
  · intro h
    rcases h with h | h | h <;> simp [extractCredentials, h]
  · intro cred h
    cases hA : cfg.lookup "apiKeyId" with
    | none => simp [extractCredentials, hA, jsTruthyStrOpt] at h
    | some a =>
      cases hB : cfg.lookup "apiKeySecret" with
      | none => simp [extractCredentials, hA, hB, jsTruthyStrOpt] at h
      | some b =>
        cases hC : cfg.lookup "endpoint" with
        | none => simp [extractCredentials, hA, hB, hC, jsTruthyStrOpt] at h
        | some c =>
          by_cases ea : a = ""
          · simp [extractCredentials, hA, hB, hC, jsTruthyStrOpt, ea] at h
          · by_cases eb : b = ""
            · simp [extractCredentials, hA, hB, hC, jsTruthyStrOpt, ea, eb] at h
            · by_cases ec : c = ""
              · simp [extractCredentials, hA, hB, hC, jsTruthyStrOpt, ea, eb, ec] at h
              · simp [extractCredentials, hA, hB, hC, jsTruthyStrOpt, ea, eb, ec] at h
                rw [← h]
                exact ⟨rfl, rfl, rfl⟩

/-- C4 witness: the configuration with the three fields set to a, b and
x.example.com extracts those values verbatim. -/
theorem extractCredentials_characterization_witness :
    extractCredentials ⟨[("apiKeyId", "a"), ("apiKeySecret", "b"), ("endpoint", "x.example.com")]⟩ =
      Except.ok ⟨"a", "b", "x.example.com"⟩ :=
  (extractCredentials_characterization _).1 "a" "b" "x.example.com" rfl rfl rfl
    (by decide) (by decide) (by decide)

/-- C5 counterexample: two credentials with distinct (endpoint, keyId)
pairs, endpoint a_b with key c versus endpoint a with key b_c, produce
the same cache key, so getCacheKey is not injective over all distinct
pairs. -/
theorem getCacheKey_injectivity_counterexample :
    getCacheKey ⟨"c", "s1", "a_b"⟩ = getCacheKey ⟨"b_c", "s2", "a"⟩ ∧
    ((⟨"c", "s1", "a_b"⟩ : SpaceliftCredentials).endpoint,
     (⟨"c", "s1", "a_b"⟩ : SpaceliftCredentials).apiKeyId) ≠
      ((⟨"b_c", "s2", "a"⟩ : SpaceliftCredentials).endpoint,
       (⟨"b_c", "s2", "a"⟩ : SpaceliftCredentials).apiKeyId) := by
  decide

/-- C5 (amended): getCacheKey is deterministic, and it is injective over
distinct (endpoint, keyId) pairs whenever the endpoints contain no
underscore character (the separator of the key format). -/
theorem getCacheKey_deterministic_injective (c1 c2 : SpaceliftCredentials)
    (h1 : underscoreFree c1.endpoint = true) (h2 : underscoreFree c2.endpoint = true) :
    (c1 = c2 → getCacheKey c1 = getCacheKey c2) ∧
    (getCacheKey c1 = getCacheKey c2 →
      c1.endpoint = c2.endpoint ∧ c1.apiKeyId = c2.apiKeyId) := by
  constructor
  · intro h
    rw [h]
  · intro h
    have hd := congrArg String.data h
    simp only [getCacheKey, strData_append, List.append_assoc] at hd
    have hd' := List.append_cancel_left hd
    have hs : c1.endpoint.data ++ '_' :: c1.apiKeyId.data =
        c2.endpoint.data ++ '_' :: c2.apiKeyId.data := by
      simpa using hd'
    have hr := sep_split c1.endpoint.data c2.endpoint.data c1.apiKeyId.data c2.apiKeyId.data
      (underscoreFree_not_mem h1) (underscoreFree_not_mem h2) hs
    exact ⟨strData_inj hr.1, strData_inj hr.2⟩

/-- C5 witness: determinism and injectivity hold at the underscore-free
endpoint example.com with key k. -/
theorem getCacheKey_deterministic_injective_witness :
    getCacheKey ⟨"k", "s", "example.com"⟩ = getCacheKey ⟨"k", "s", "example.com"⟩ :=
  (getCacheKey_deterministic_injective ⟨"k", "s", "example.com"⟩ ⟨"k", "s", "example.com"⟩
    (by decide) (by decide)).1 rfl

/-- C6 counterexample: the cache key of a concrete credentials value is
spacelift_jwt_host.example_key1, not the jwt:host.example:key1 format the
claim states. -/
theorem getCacheKey_format_counterexample :
    getCacheKey ⟨"key1", "secret", "host.example"⟩ ≠
      specCacheKeyFormat ⟨"key1", "secret", "host.example"⟩ ∧
    getCacheKey ⟨"key1", "secret", "host.example"⟩ = "spacelift_jwt_host.example_key1" ∧
    specCacheKeyFormat ⟨"key1", "secret", "host.example"⟩ = "jwt:host.example:key1" := by
  decide

/-- C6 (amended): the cache key under which the cached token is stored by
refreshSpaceliftJWT and looked up by getSpaceliftJWT is spacelift_jwt_
followed by the endpoint host, an underscore, and the key id. -/
theorem cacheKey_store_and_lookup (c : SpaceliftCredentials)
    (kvGet : String → Option CachedJWTToken) (fetched : TokenFetchResult) (now : Int) :
    (getSpaceliftJWT c kvGet fetched now).lookupKey =
      "spacelift_jwt_" ++ c.endpoint ++ "_" ++ c.apiKeyId ∧
    (refreshSpaceliftJWT c fetched now).1.key =
      "spacelift_jwt_" ++ c.endpoint ++ "_" ++ c.apiKeyId := by
  refine ⟨?_, rfl⟩
  simp only [getSpaceliftJWT, getCacheKey]
  split <;> rfl

/-- C1 counterexample: with error messages unauthor and ized, the
case-folded separator-free concatenation contains unauthorized, yet
executeSpaceliftQuery issues no retry and no refresh, because the code
joins the messages with a space before testing. -/
theorem execConcatRetry_counterexample :
    specRetryPredicate [⟨"unauthor", none⟩, ⟨"ized", none⟩] = true ∧
    (executeSpaceliftQuery "t0" "t1"
        { data := none, errors := some [⟨"unauthor", none⟩, ⟨"ized", none⟩] }
        { data := none, errors := none }).requests = ["t0"] ∧
    (executeSpaceliftQuery "t0" "t1"
        { data := none, errors := some [⟨"unauthor", none⟩, ⟨"ized", none⟩] }
        { data := none, errors := none }).refreshes = 0 := by
  decide

/-- C1 (amended): at most one retry occurs per execution, and a retry
occurs exactly when the first response has errors and the case-folded
space-joined concatenation of all its error messages contains the
substring unauthorized; a response whose errors do not match is surfaced
as a GraphQL error immediately with no retry and no token refresh. -/
theorem execRetryClassification (jwt0 jwtFresh : String)
    (resp1 resp2 : SpaceliftApiResponse) :
    (executeSpaceliftQuery jwt0 jwtFresh resp1 resp2).requests.length ≤ 2 ∧
    ((executeSpaceliftQuery jwt0 jwtFresh resp1 resp2).requests.length = 2 ↔
      ∃ errs, resp1.errors = some errs ∧ unauthorizedMatch errs = true) ∧
    (∀ errs, resp1.errors = some errs → unauthorizedMatch errs = false →
      executeSpaceliftQuery jwt0 jwtFresh resp1 resp2 =
        { outcome := QueryOutcome.graphQLError (graphQLErrorText errs)
          requests := [jwt0], refreshes := 0 }) := by
  cases h1 : resp1.errors with
  | none => simp [executeSpaceliftQuery, h1]
  | some errs =>
    cases hm : unauthorizedMatch errs with
    | false => simp [executeSpaceliftQuery, h1, hm]
    | true =>
      cases h2 : resp2.errors with
      | none => simp [executeSpaceliftQuery, h1, hm, h2]
      | some errs2 => simp [executeSpaceliftQuery, h1, hm, h2]

/-- C1 witness: a single non-matching error surfaces immediately with one
request and no refresh. -/
theorem execRetryClassification_witness :
    executeSpaceliftQuery "t0" "t1"
      { data := none, errors := some [⟨"boom", none⟩] }
      { data := none, errors := none } =
      { outcome := QueryOutcome.graphQLError (graphQLErrorText [⟨"boom", none⟩])
        requests := ["t0"], refreshes := 0 } :=
  (execRetryClassification "t0" "t1"
    { data := none, errors := some [⟨"boom", none⟩] }
    { data := none, errors := none }).2.2 [⟨"boom", none⟩] rfl (by decide)

/-- C3 counterexample: the first response matches unauthorized; the
retried response fails with message access denied; the thrown GraphQL
error text does not contain the original error message Unauthorized,
because the code reports the errors of the retried response. -/
theorem execRetryOriginal_counterexample :
    unauthorizedMatch [⟨"Unauthorized", none⟩] = true ∧
    (executeSpaceliftQuery "t0" "t1"
        { data := none, errors := some [⟨"Unauthorized", none⟩] }
        { data := none, errors := some [⟨"access denied", none⟩] }).outcome =
      QueryOutcome.graphQLError "GraphQL error:\n - access denied\n" ∧
    strIncludes "GraphQL error:\n - access denied\n" "Unauthorized" = false := by
  decide

/-- C3 (amended): when the first response matches unauthorized (any case),
exactly one retried request is issued with the freshly refreshed token,
and if the retried response also has errors the execution fails with a
GraphQL error whose text contains all error messages of the retried
response. -/
theorem execRetryFailureReportsRetriedErrors (jwt0 jwtFresh : String)
    (resp1 resp2 : SpaceliftApiResponse) (errs1 errs2 : List GraphQLErrorEntry)
    (h1 : resp1.errors = some errs1) (hm : unauthorizedMatch errs1 = true)
    (h2 : resp2.errors = some errs2) :
    executeSpaceliftQuery jwt0 jwtFresh resp1 resp2 =
      { outcome := QueryOutcome.graphQLError (graphQLErrorText errs2)
        requests := [jwt0, jwtFresh], refreshes := 1 } ∧
    ∀ e ∈ errs2, strIncludes (graphQLErrorText errs2) e.message = true := by
  constructor
  · simp [executeSpaceliftQuery, h1, hm, h2]
  · intro e he
    exact decide_eq_true (message_infix_text he)

/-- C3 witness: a matched unauthorized error followed by a failing retry
produces the retried request with the fresh token and the GraphQL error
of the retried response. -/
theorem execRetryFailureReportsRetriedErrors_witness :
    executeSpaceliftQuery "t0" "t1"
      { data := none, errors := some [⟨"unauthorized", none⟩] }
      { data := none, errors := some [⟨"still broken", none⟩] } =
      { outcome := QueryOutcome.graphQLError (graphQLErrorText [⟨"still broken", none⟩])
        requests := ["t0", "t1"], refreshes := 1 } :=
  (execRetryFailureReportsRetriedErrors "t0" "t1"
    { data := none, errors := some [⟨"unauthorized", none⟩] }
    { data := none, errors := some [⟨"still broken", none⟩] }
    [⟨"unauthorized", none⟩] [⟨"still broken", none⟩] rfl (by decide) rfl).1

/-- C7 counterexample: a response with no errors and data present but
null fails with the protocol error instead of returning the null payload
unchanged, because the code tests JavaScript falsiness of data, not
absence. -/
theorem execNullData_counterexample :
    (executeSpaceliftQuery "t" "t"
        { data := some JSValue.jsNull, errors := none }
        { data := none, errors := none }).outcome =
      QueryOutcome.protocolError "No data returned from Spacelift API" ∧
    (executeSpaceliftQuery "t" "t"
        { data := some JSValue.jsNull, errors := none }
        { data := none, errors := none }).outcome ≠
      QueryOutcome.success JSValue.jsNull := by
  decide

/-- C7 (amended): on the no-errors path (first response or retried
response), if data is present and truthy it is returned unchanged, and if
data is absent or falsy (undefined, null, false, 0 or the empty string)
the call fails with the protocol error whose message is No data returned
from Spacelift API; in particular a response with neither errors nor data
always fails with that protocol error. -/
theorem execNoErrorsDataPath (jwt0 jwtFresh : String)
    (resp1 resp2 : SpaceliftApiResponse) :
    (resp1.errors = none →
      ((∀ v, resp1.data = some v → jsTruthy v = true →
        (executeSpaceliftQuery jwt0 jwtFresh resp1 resp2).outcome = QueryOutcome.success v) ∧
       (jsTruthyOpt resp1.data = false →
        (executeSpaceliftQuery jwt0 jwtFresh resp1 resp2).outcome =
          QueryOutcome.protocolError "No data returned from Spacelift API"))) ∧
    (∀ errs1, resp1.errors = some errs1 → unauthorizedMatch errs1 = true →
      resp2.errors = none →
      ((∀ v, resp2.data = some v → jsTruthy v = true →
        (executeSpaceliftQuery jwt0 jwtFresh resp1 resp2).outcome = QueryOutcome.success v) ∧
       (jsTruthyOpt resp2.data = false →
        (executeSpaceliftQuery jwt0 jwtFresh resp1 resp2).outcome =
          QueryOutcome.protocolError "No data returned from Spacelift API"))) := by
  constructor
  · intro h1
    have hout : (executeSpaceliftQuery jwt0 jwtFresh resp1 resp2).outcome = checkData resp1 := by
      simp [executeSpaceliftQuery, h1]
    rw [hout]
    exact ⟨fun v hv ht => checkData_success resp1 v hv ht, fun hf => checkData_protocol resp1 hf⟩
  · intro errs1 h1 hm h2
    have hout : (executeSpaceliftQuery jwt0 jwtFresh resp1 resp2).outcome = checkData resp2 := by
      simp [executeSpaceliftQuery, h1, hm, h2]
    rw [hout]
    exact ⟨fun v hv ht => checkData_success resp2 v hv ht, fun hf => checkData_protocol resp2 hf⟩

/-- C7 witness: a first response with a truthy string payload and no
errors returns that payload. -/
theorem execNoErrorsDataPath_witness :
    (executeSpaceliftQuery "t0" "t1"
        { data := some (JSValue.jsStr "payload"), errors := none }
        { data := none, errors := none }).outcome =
      QueryOutcome.success (JSValue.jsStr "payload") :=
  ((execNoErrorsDataPath "t0" "t1"
      { data := some (JSValue.jsStr "payload"), errors := none }
      { data := none, errors := none }).1 rfl).1
    (JSValue.jsStr "payload") rfl (by decide)

/-- C8 counterexample: for the single error m with extension k mapped to
v, the thrown message carries the extension line indented by four spaces,
so it differs from the claimed exact string whose extension line is
unindented. -/
theorem graphQLErrorFormat_counterexample :
    (executeSpaceliftQuery "t" "t"
        { data := none, errors := some [⟨"m", some [("k", "v")]⟩] }
        { data := none, errors := none }).outcome =
      QueryOutcome.graphQLError "GraphQL error:\n - m:\n    1. k: v\n" ∧
    (executeSpaceliftQuery "t" "t"
        { data := none, errors := some [⟨"m", some [("k", "v")]⟩] }
        { data := none, errors := none }).outcome ≠
      QueryOutcome.graphQLError "GraphQL error:\n - m:\n1. k: v\n" := by
  decide

/-- C8 (amended): every error list raised as a GraphQL error by
executeSpaceliftQuery is rendered as the exact string GraphQL error,
colon, newline, then the newline-joined error lines and a trailing
newline, where an error without extensions renders as a dash and its
message, and an error with extensions renders as a dash, its message and
a colon followed by one line per extension entry consisting of four
spaces, the entry number from 1 in entry order, a dot, the key, a colon
and the value. -/
theorem execGraphQLErrorFormat (jwt0 jwtFresh : String)
    (resp1 resp2 : SpaceliftApiResponse) :
    (∀ errs, graphQLErrorText errs = specGraphQLMessageIndented errs) ∧
    (∀ m, (executeSpaceliftQuery jwt0 jwtFresh resp1 resp2).outcome =
        QueryOutcome.graphQLError m →
      ∃ errs, (resp1.errors = some errs ∨ resp2.errors = some errs) ∧
        m = specGraphQLMessageIndented errs) := by
  refine ⟨graphQLErrorText_eq_spec, ?_⟩
  intro m hm
  cases h1 : resp1.errors with
  | none =>
      exfalso
      apply checkData_ne_graphQLError resp1 m
      rw [← hm]
      simp [executeSpaceliftQuery, h1]
  | some errs1 =>
      cases hu : unauthorizedMatch errs1 with
      | false =>
          refine ⟨errs1, Or.inl rfl, ?_⟩
          have : (executeSpaceliftQuery jwt0 jwtFresh resp1 resp2).outcome =
              QueryOutcome.graphQLError (graphQLErrorText errs1) := by
            simp [executeSpaceliftQuery, h1, hu]
          rw [this] at hm
          injection hm with hmm
          rw [← hmm, graphQLErrorText_eq_spec]
      | true =>
          cases h2 : resp2.errors with
          | none =>
              exfalso
              apply checkData_ne_graphQLError resp2 m
              rw [← hm]
              simp [executeSpaceliftQuery, h1, hu, h2]
          | some errs2 =>
              refine ⟨errs2, Or.inr rfl, ?_⟩
              have : (executeSpaceliftQuery jwt0 jwtFresh resp1 resp2).outcome =
                  QueryOutcome.graphQLError (graphQLErrorText errs2) := by
                simp [executeSpaceliftQuery, h1, hu, h2]
              rw [this] at hm
              injection hm with hmm
              rw [← hmm, graphQLErrorText_eq_spec]

/-- C8 witness: the error boom of a non-matching first response is
rendered with the specified format. -/
theorem execGraphQLErrorFormat_witness :
    ∃ errs,
      (({ data := none, errors := some [⟨"boom", none⟩] } : SpaceliftApiResponse).errors = some errs ∨
       ({ data := none, errors := none } : SpaceliftApiResponse).errors = some errs) ∧
      "GraphQL error:\n - boom\n" = specGraphQLMessageIndented errs :=
  (execGraphQLErrorFormat "t0" "t1"
    { data := none, errors := some [⟨"boom", none⟩] }
    { data := none, errors := none }).2 "GraphQL error:\n - boom\n" (by decide)

/-- C9: the GraphQL variables built by the createStackFromBlueprint block
are the blueprint id under id and, under input.templateInputs, one pair
per entry of the inputs mapping with the value coerced to string and
entry order preserved; the list is empty when no inputs are given; in
particular blueprint bp1 with input foo mapped to bar yields id bp1 and
the single pair foo, bar. -/
theorem createStackVariables_shape (blueprintId : String)
    (inputs : Option (List (String × JSValue))) :
    (createStackVariablesOf blueprintId inputs).id = blueprintId ∧
    (createStackVariablesOf blueprintId inputs).input.templateInputs.length =
      (inputs.getD []).length ∧
    (∀ i : Nat, ((createStackVariablesOf blueprintId inputs).input.templateInputs)[i]? =
      ((inputs.getD [])[i]?).map (fun p => { id := p.1, value := jsToString p.2 })) ∧
    (inputs = none →
      (createStackVariablesOf blueprintId inputs).input.templateInputs = []) ∧
    createStackVariablesOf "bp1" (some [("foo", JSValue.jsStr "bar")]) =
      { id := "bp1", input := { templateInputs := [{ id := "foo", value := "bar" }] } } := by
  refine ⟨rfl, ?_, ?_, ?_, by decide⟩
  · cases inputs <;>
      simp [createStackVariablesOf, buildCreateStackVariables, mapInputsToGraphQLVariables]
  · intro i
    cases inputs <;>
      simp [createStackVariablesOf, buildCreateStackVariables, mapInputsToGraphQLVariables]
  · intro h
    subst h
    rfl

/-- C9 witness: with no inputs the template input list is empty. -/
theorem createStackVariables_shape_witness :
    (createStackVariablesOf "bpX" none).input.templateInputs = [] :=
  (createStackVariables_shape "bpX" none).2.2.2.1 rfl

/-- C10: a response whose errors field is present but an empty list is
classified as a failure: executeSpaceliftQuery throws a GraphQL error
with no message lines even when data is present, and never returns the
data, because the failure test is on the presence of the errors field. -/
theorem execEmptyErrorsList (jwt0 jwtFresh : String) (d : JSValue)
    (resp2 : SpaceliftApiResponse) :
    executeSpaceliftQuery jwt0 jwtFresh { data := some d, errors := some [] } resp2 =
      { outcome := QueryOutcome.graphQLError "GraphQL error:\n\n"
        requests := [jwt0], refreshes := 0 } ∧
    ∀ v, (executeSpaceliftQuery jwt0 jwtFresh
        { data := some d, errors := some [] } resp2).outcome ≠ QueryOutcome.success v := by
  have h1 : unauthorizedMatch [] = false := by decide
  have h2 : graphQLErrorText [] = "GraphQL error:\n\n" := by decide
  have hmain : executeSpaceliftQuery jwt0 jwtFresh { data := some d, errors := some [] } resp2 =
      { outcome := QueryOutcome.graphQLError "GraphQL error:\n\n"
        requests := [jwt0], refreshes := 0 } := by
    simp [executeSpaceliftQuery, h1, h2]
  refine ⟨hmain, ?_⟩
  intro v
  rw [hmain]
  simp

/-- C6 witness: the store key at a concrete credentials value. -/
theorem cacheKey_store_and_lookup_witness :
    (refreshSpaceliftJWT ⟨"key1", "sec", "host.example"⟩ ⟨"tok", 1000⟩ 0).1.key =
      "spacelift_jwt_" ++ "host.example" ++ "_" ++ "key1" :=
  (cacheKey_store_and_lookup ⟨"key1", "sec", "host.example"⟩ (fun _ => none)
    ⟨"tok", 1000⟩ 0).2

/-- C10 witness: the empty error list with a truthy payload still never
returns the payload. -/
theorem execEmptyErrorsList_witness :
    (executeSpaceliftQuery "t0" "t1"
        { data := some (JSValue.jsStr "x"), errors := some [] }
        { data := none, errors := none }).outcome ≠
      QueryOutcome.success (JSValue.jsStr "x") :=
  (execEmptyErrorsList "t0" "t1" (JSValue.jsStr "x")
    { data := none, errors := none }).2 (JSValue.jsStr "x")
